import Mathlib

/-!
Verification of the pwndbg-mcp debugger session controller
(`pwndbg_mcp/gdb_controller.py` and `pwndbg_mcp/tools.py`).

The Python code is shallowly embedded: every definition below mirrors a
function or code block of the source, with line references in doc comments.
Strings model Python `str`; byte chunks are `List Nat`; exceptions that the
source can raise are modelled with `Except`.
-/

/-- GdbState from gdb_controller.py lines 18-21.  The underlying StrEnum
values ('Uninitialized', 'Stopped', 'Running') are all non-empty strings,
so every state is truthy in Python; only the constructors matter here. -/
inductive GdbState
  | DEAD
  | STOPPED
  | RUNNING
deriving DecidableEq, Repr, Fintype

/-- GdbMIType from gdb_controller.py lines 23-28. -/
inductive GdbMIType
  | NOTIFY
  | CONSOLE
  | LOG
  | RESULT
  | TARGET
deriving DecidableEq, Repr

/-- GdbResponse from gdb_controller.py lines 30-40, after its constructor has
run: `message` already holds the message-or-payload fallback with ANSI color
codes stripped (lines 38-40).  Result payload dictionaries are irrelevant to
every claim, so `message` is a string. -/
structure GdbResponse where
  mitype : GdbMIType
  message : String
deriving DecidableEq, Repr

/-- Whitespace characters removed by Python `str.strip()` (for the ASCII
range handled by this program): space, tab, newline, carriage return,
vertical tab, form feed. -/
def pyWhitespaceChar (c : Char) : Bool :=
  c = ' ' || c = '\t' || c = '\n' || c = '\x0d' || c = '\x0b' || c = '\x0c'

/-- Python `s.strip()`: drop leading and trailing whitespace. -/
def pystrip (s : String) : String :=
  String.mk (((s.data.dropWhile pyWhitespaceChar).reverse.dropWhile pyWhitespaceChar).reverse)

/-- Python `s.endswith('\n')` (gdb_controller.py line 163). -/
def endsWithNewline (s : String) : Bool :=
  decide (s.data.getLast? = some '\n')

/-- Loop body of update_gdb_state (gdb_controller.py lines 50-54): a Notify
record whose message is 'running' or 'stopped' overwrites the cache, every
other record leaves it unchanged. -/
def gdb_state_step (cache : Option GdbState) (r : GdbResponse) : Option GdbState :=
  if r.mitype = .NOTIFY then
    if r.message = "running" then some .RUNNING
    else if r.message = "stopped" then some .STOPPED
    else cache
  else cache

/-- update_gdb_state from gdb_controller.py lines 43-55. -/
def update_gdb_state (resps : List GdbResponse) : Option GdbState :=
  resps.foldl gdb_state_step none

/-- Application of an update_gdb_state result to the session state, as done
by the walrus-if at gdb_controller.py lines 131-132 and 184-185 and
tools.py lines 243-244: `None` leaves the state unchanged (every GdbState
value is a non-empty string, hence truthy). -/
def apply_gdb_state (st : GdbState) (resps : List GdbResponse) : GdbState :=
  (update_gdb_state resps).getD st

/-- Specification-side classification of one record (spec section 4.1): only
a Notify record carrying 'running' or 'stopped' denotes a state transition. -/
def transitionOf (r : GdbResponse) : Option GdbState :=
  if r.mitype = .NOTIFY ∧ r.message = "running" then some .RUNNING
  else if r.mitype = .NOTIFY ∧ r.message = "stopped" then some .STOPPED
  else none

/-- Specification-side reading of a batch: the transition of the last record
that denotes one ("the last such record in the batch wins"). -/
def lastNotifyTransition : List GdbResponse → Option GdbState
  | [] => none
  | r :: rest =>
    match lastNotifyTransition rest with
    | some s => some s
    | none => transitionOf r

/-- Scan pass of the response-merge loop in AsyncGdbController.execute
(gdb_controller.py lines 157-177), refactored as `process_responses` in the
revision that tools.py imports.  The Python loop edits records in place and
collects `pop_list`; here each record is paired with its popped flag:
an unterminated Console record is marked and its text added to `cache`
(lines 163-165); a newline-terminated Console record absorbs the cache and
is stripped (lines 166-170); a Log record is stripped (lines 171-172); a
Notify record is marked exactly when its message is 'cmd-param-changed'
(lines 173-175); a Result record is marked (lines 176-177); a Target record
is untouched.  Returns the annotated records and the final cache. -/
def scanEdit (cache : String) : List GdbResponse → List (GdbResponse × Bool) × String
  | [] => ([], cache)
  | r :: rest =>
    match r.mitype with
    | .CONSOLE =>
      if endsWithNewline r.message then
        ((⟨.CONSOLE, pystrip (if cache ≠ "" then cache ++ r.message else r.message)⟩, false)
            :: (scanEdit "" rest).1,
          (scanEdit "" rest).2)
      else
        ((r, true) :: (scanEdit (cache ++ r.message) rest).1,
          (scanEdit (cache ++ r.message) rest).2)
    | .LOG =>
      ((⟨.LOG, pystrip r.message⟩, false) :: (scanEdit cache rest).1, (scanEdit cache rest).2)
    | .NOTIFY =>
      ((r, decide (r.message = "cmd-param-changed")) :: (scanEdit cache rest).1,
        (scanEdit cache rest).2)
    | .RESULT =>
      ((r, true) :: (scanEdit cache rest).1, (scanEdit cache rest).2)
    | .TARGET =>
      ((r, false) :: (scanEdit cache rest).1, (scanEdit cache rest).2)

/-- Salvage step of gdb_controller.py lines 178-180, on the REVERSED
annotated list: `parsed_responses[pop_list[-1]].message = cache.strip()`
followed by `pop_list.pop(-1)` rewrites the record at the largest popped
index — i.e. the last marked entry — with the stripped pending cache
(keeping its mitype) and unmarks it. -/
def salvageRev (cache : String) : List (GdbResponse × Bool) → List (GdbResponse × Bool)
  | [] => []
  | (r, marked) :: t =>
    if marked then (⟨r.mitype, pystrip cache⟩, false) :: t
    else (r, marked) :: salvageRev cache t

/-- Response-merge of AsyncGdbController.execute (gdb_controller.py lines
157-182): scan and annotate, salvage the last popped record when unflushed
cache remains (`if cache:` line 178), then drop the records still marked
(the reversed pop loop, lines 181-182). -/
def process_responses (resps : List GdbResponse) : List GdbResponse :=
  let sc := scanEdit "" resps
  let l2 := if sc.2 ≠ "" then (salvageRev sc.2 sc.1.reverse).reverse else sc.1
  (l2.filter (fun p => !p.2)).map Prod.fst

/-- Modelled from the spec (section 4.2 merge rules): console records not
terminated by a newline are buffered and concatenated with the next
newline-terminated console record; log records are trimmed; result records
and 'cmd-param-changed' notifications are excluded; surviving records keep
their order.  The trailing-buffer salvage of the code has no counterpart
here. -/
def mergeSpecAux (buffer : String) : List GdbResponse → List GdbResponse
  | [] => []
  | r :: rest =>
    match r.mitype with
    | .CONSOLE =>
      if endsWithNewline r.message then
        ⟨.CONSOLE, pystrip (if buffer ≠ "" then buffer ++ r.message else r.message)⟩
            :: mergeSpecAux "" rest
      else mergeSpecAux (buffer ++ r.message) rest
    | .LOG => ⟨.LOG, pystrip r.message⟩ :: mergeSpecAux buffer rest
    | .NOTIFY =>
      if r.message = "cmd-param-changed" then mergeSpecAux buffer rest
      else r :: mergeSpecAux buffer rest
    | .RESULT => mergeSpecAux buffer rest
    | .TARGET => r :: mergeSpecAux buffer rest

/-- Outcome of `self._controller.write(...)` at gdb_controller.py lines
144-147: either the raw record list the debugger returned, or the
BrokenPipeError raised when gdb has exited. -/
inductive WriteOutcome
  | records : List GdbResponse → WriteOutcome
  | brokenPipe : WriteOutcome
deriving DecidableEq, Repr

/-- Observable outcome of one AsyncGdbController.execute call: the session
state afterwards, the returned value (`none` models Python `None`),
whether the command was submitted to the debugger (`self._controller.write`
attempted), and whether `close()` was invoked on the session. -/
structure ExecOutcome where
  state : GdbState
  result : Option (List GdbResponse)
  submitted : Bool
  closed : Bool
deriving DecidableEq, Repr

/-- Synthetic diagnostic built at gdb_controller.py line 151:
`GdbResponse('result', 'GDB exited! run this command again', None)`. -/
def brokenPipeDiagnostic : GdbResponse :=
  ⟨.RESULT, "GDB exited! run this command again"⟩

/-- AsyncGdbController.execute (gdb_controller.py lines 103-194) as a
function of the session state at entry, the records a ~1-second
non-blocking poll would return (`get_gdb_response(1, False)`, line 126,
performed only when the state is Running), the command string, and the
write outcome.  Timeout plumbing (lines 138, 146) does not affect the
modelled observables.  BrokenPipeError is the one exception the body can
raise and it is caught at lines 148-151, so the model is total.  `close()`
in the quit branch (lines 191-193) is modelled by its state effect
(state := DEAD) together with the `closed` flag; the controller is
necessarily started there since the state was Stopped. -/
def execute (st : GdbState) (poll : List GdbResponse) (command : String)
    (write : WriteOutcome) : ExecOutcome :=
  let parsed0 : List GdbResponse := if st = .RUNNING then poll else []
  let st1 : GdbState := if st = .RUNNING then apply_gdb_state st poll else st
  if st1 = .STOPPED then
    match write with
    | .brokenPipe => ⟨.DEAD, some [brokenPipeDiagnostic], true, false⟩
    | .records rs =>
      let merged := process_responses (parsed0 ++ rs)
      let st2 := apply_gdb_state st1 merged
      if command = "quit" ∨ command = "q" then ⟨.DEAD, some merged, true, true⟩
      else ⟨st2, some merged, true, false⟩
  else ⟨st1, none, false, false⟩

/-- Lifecycle-relevant attributes of an AsyncGdbController instance.
`started` models `self._started`: `none` means the attribute was never
assigned (as after `__init__`, which does not set it — reading it then
raises AttributeError), `some b` models an assigned boolean.  `controller`,
`pty_master` and `pty_slave` model whether `self._controller`,
`self._pty_master` and `self._pty_slave` are non-None. -/
structure AsyncGdbCtrl where
  state : GdbState
  started : Option Bool
  controller : Bool
  pty_master : Bool
  pty_slave : Bool
deriving DecidableEq, Repr, Fintype

/-- Controller state established by `__init__` (gdb_controller.py lines
61-72): state Dead, no controller, no PTY descriptors, and — crucially —
`_started` never assigned. -/
def initCtrl : AsyncGdbCtrl :=
  ⟨.DEAD, none, false, false, false⟩

/-- AsyncGdbController.start (gdb_controller.py lines 74-101): a no-op
unless the state is Dead; otherwise allocate the PTY pair, launch gdb,
set `_started = True` and transition to Stopped. -/
def start (c : AsyncGdbCtrl) : AsyncGdbCtrl :=
  if c.state ≠ .DEAD then c
  else ⟨.STOPPED, some true, true, true, true⟩

/-- Exceptions the lifecycle code can raise in the model: the
AttributeError from reading the never-assigned `self._started`. -/
inductive PyError
  | attributeError
deriving DecidableEq, Repr, Fintype

deriving instance DecidableEq for Except

/-- AsyncGdbController.close (gdb_controller.py lines 263-286): reading
`self._started` on a never-started controller raises AttributeError; when
`_started` is False the call returns immediately; otherwise the gdb
controller is exited and cleared, `_started` is set False, both PTY
descriptors are released, and the state becomes Dead. -/
def close (c : AsyncGdbCtrl) : Except PyError AsyncGdbCtrl :=
  match c.started with
  | none => .error .attributeError
  | some false => .ok c
  | some true =>
    let c1 := if c.controller then { c with controller := false, started := some false } else c
    let c2 := { c1 with pty_master := false, pty_slave := false }
    .ok { c2 with state := .DEAD }

/-- may_start_gdb from tools.py lines 60-70, acting on the module-global
`_gdb_controller` (`none` when it does not exist yet): create and start a
controller when none exists; then, if the (possibly fresh) controller is
Dead, close it and create and start a fresh one.  The returned controller
is also the new value of the global. -/
def may_start_gdb (g : Option AsyncGdbCtrl) : Except PyError AsyncGdbCtrl :=
  let c := match g with
    | none => start initCtrl
    | some c => c
  if c.state = .DEAD then
    match close c with
    | .error e => .error e
    | .ok _ => .ok (start initCtrl)
  else .ok c

/-- The per-byte test at gdb_controller.py line 253:
`b >= 32 or b == 0xd or b == 0xa` — the source's notion of a printable
character or carriage-return/line-feed. -/
def printableOrCrLf (b : Nat) : Bool :=
  decide (32 ≤ b) || decide (b = 0xd) || decide (b = 0xa)

/-- Decoder state for UTF-8 validation: expecting a lead byte, expecting a
continuation byte constrained to `[lo, hi]` with `more` further
continuation bytes after it, or failed. -/
inductive Utf8State
  | expectLead
  | expectCont (lo hi more : Nat)
  | bad
deriving DecidableEq, Repr

/-- One step of standard (strict, as Python `bytes.decode('utf-8')`) UTF-8
validation: lead bytes select the continuation count and the constrained
range of the first continuation byte, rejecting overlong forms, surrogates
and code points above U+10FFFF. -/
def utf8Step : Utf8State → Nat → Utf8State
  | .bad, _ => .bad
  | .expectCont lo hi more, b =>
    if lo ≤ b ∧ b ≤ hi then
      (if more = 0 then .expectLead else .expectCont 0x80 0xBF (more - 1))
    else .bad
  | .expectLead, b =>
    if b ≤ 0x7F then .expectLead
    else if 0xC2 ≤ b ∧ b ≤ 0xDF then .expectCont 0x80 0xBF 0
    else if b = 0xE0 then .expectCont 0xA0 0xBF 1
    else if (0xE1 ≤ b ∧ b ≤ 0xEC) ∨ b = 0xEE ∨ b = 0xEF then .expectCont 0x80 0xBF 1
    else if b = 0xED then .expectCont 0x80 0x9F 1
    else if b = 0xF0 then .expectCont 0x90 0xBF 2
    else if 0xF1 ≤ b ∧ b ≤ 0xF3 then .expectCont 0x80 0xBF 2
    else if b = 0xF4 then .expectCont 0x80 0x8F 2
    else .bad

/-- Success of `data.decode('utf-8')` (gdb_controller.py line 255). -/
def utf8Valid (data : List Nat) : Bool :=
  decide (data.foldl utf8Step .expectLead = .expectLead)

/-- Rendering chosen by read_from_process: `absent` models returning None,
`text` the successfully UTF-8-decoded text of the chunk, `dump` the
hexdump rendering of the chunk. -/
inductive ReadResult
  | absent
  | text : List Nat → ReadResult
  | dump : List Nat → ReadResult
deriving DecidableEq, Repr

/-- AsyncGdbController.read_from_process (gdb_controller.py lines 231-261)
as a function of the byte chunk obtained by `_read` (lines 243-247): the
empty chunk — poll timeout, no data, or OSError — yields None (line 252);
a chunk whose bytes all pass `printableOrCrLf` is decoded as UTF-8 text,
falling back to hexdump when decoding fails (lines 253-257); any other
chunk is rendered as a hexdump (lines 258-259). -/
def read_from_process (data : List Nat) : ReadResult :=
  if data = [] then .absent
  else if data.all printableOrCrLf then
    if utf8Valid data then .text data else .dump data
  else .dump data

/-- AVAILABLE_ACTIONS from tools.py lines 112-116. -/
def AVAILABLE_ACTIONS : List String :=
  ["c", "n", "r", "s", "kill", "fin", "ni", "si", "entry", "start",
   "sstart", "nextcall", "nextjmp", "nextret", "nextsyscall", "nextproginstr",
   "stepover", "stepret", "strpsyscall", "stepuntilasm", "xuntil"]

/-- Observable behaviour of the debug_control tool: either the action is
handed to execute_command with exactly the given string, or a structured
error payload (format_simple of a dict with an 'error' entry) is returned
and no command reaches the debugger. -/
inductive ToolReply
  | executed : String → ToolReply
  | errorPayload : String → ToolReply
deriving DecidableEq, Repr

/-- debug_control from tools.py lines 117-131: whitelisted actions are
forwarded verbatim to execute_command, everything else yields the error
payload. -/
def debug_control (action : String) : ToolReply :=
  if action ∈ AVAILABLE_ACTIONS then .executed action
  else .errorPayload "Unknown state action. Take a look at documentation"

theorem gdb_state_step_eq (acc : Option GdbState) (r : GdbResponse) :
    gdb_state_step acc r = (transitionOf r).elim acc some := by
  obtain ⟨mt, msg⟩ := r
  cases mt with
  | NOTIFY =>
    simp only [gdb_state_step, transitionOf]
    split_ifs <;> simp_all
  | CONSOLE => simp [gdb_state_step, transitionOf]
  | LOG => simp [gdb_state_step, transitionOf]
  | RESULT => simp [gdb_state_step, transitionOf]
  | TARGET => simp [gdb_state_step, transitionOf]

theorem foldl_gdb_state_step (l : List GdbResponse) :
    ∀ acc : Option GdbState,
      l.foldl gdb_state_step acc = (lastNotifyTransition l).elim acc some := by
  induction l with
  | nil => intro acc; simp [lastNotifyTransition]
  | cons r rest ih =>
    intro acc
    rw [List.foldl_cons, ih, lastNotifyTransition]
    cases h : lastNotifyTransition rest with
    | some s => simp
    | none => simp [gdb_state_step_eq]

/-- C1: over any batch of classified records, the session state is updated
only by Notify records: 'running' yields Running, 'stopped' yields Stopped,
the last such record wins, and no Result, Console, Log, Target, or
other-message Notify record changes the state (update_gdb_state computes
exactly the last Notify-carried transition of the batch, and the walrus-if
in execute and status applies it, leaving the state unchanged when the
batch carries none). -/
theorem update_gdb_state_notify_only (resps : List GdbResponse) (st : GdbState) :
    update_gdb_state resps = lastNotifyTransition resps ∧
    apply_gdb_state st resps = (lastNotifyTransition resps).getD st := by
  have h : update_gdb_state resps = lastNotifyTransition resps := by
    rw [update_gdb_state, foldl_gdb_state_step]
    cases lastNotifyTransition resps <;> rfl
  exact ⟨h, by rw [apply_gdb_state, h]⟩

theorem scanEdit_filter_eq_mergeSpec (l : List GdbResponse) :
    ∀ cache : String,
      ((scanEdit cache l).1.filter (fun p => !p.2)).map Prod.fst = mergeSpecAux cache l := by
  induction l with
  | nil => intro cache; simp [scanEdit, mergeSpecAux]
  | cons r rest ih =>
    intro cache
    obtain ⟨mt, msg⟩ := r
    cases mt with
    | NOTIFY =>
      by_cases h : msg = "cmd-param-changed" <;> simp [scanEdit, mergeSpecAux, h, ih]
    | CONSOLE =>
      by_cases h : endsWithNewline msg = true <;> simp [scanEdit, mergeSpecAux, h, ih]
    | LOG => simp [scanEdit, mergeSpecAux, ih]
    | RESULT => simp [scanEdit, mergeSpecAux, ih]
    | TARGET => simp [scanEdit, mergeSpecAux, ih]

theorem mergeSpecAux_mem (l : List GdbResponse) :
    ∀ (buffer : String) (r : GdbResponse), r ∈ mergeSpecAux buffer l →
      r.mitype ≠ .RESULT ∧ ¬(r.mitype = .NOTIFY ∧ r.message = "cmd-param-changed") := by
  induction l with
  | nil => intro buffer r h; simp [mergeSpecAux] at h
  | cons x rest ih =>
    intro buffer r h
    obtain ⟨mt, msg⟩ := x
    cases mt with
    | NOTIFY =>
      by_cases hm : msg = "cmd-param-changed"
      · exact ih buffer r (by simpa [mergeSpecAux, hm] using h)
      · rcases (by simpa [mergeSpecAux, hm] using h : r = ⟨.NOTIFY, msg⟩ ∨ _) with h' | h'
        · subst h'; exact ⟨by simp, by simpa using hm⟩
        · exact ih buffer r h'
    | CONSOLE =>
      by_cases he : endsWithNewline msg = true
      · rcases (by simpa [mergeSpecAux, he] using h :
            r = ⟨.CONSOLE, pystrip (if buffer ≠ "" then buffer ++ msg else msg)⟩ ∨ _) with h' | h'
        · subst h'; exact ⟨by simp, by simp⟩
        · exact ih "" r h'
      · exact ih (buffer ++ msg) r (by simpa [mergeSpecAux, he] using h)
    | LOG =>
      rcases (by simpa [mergeSpecAux] using h : r = ⟨.LOG, pystrip msg⟩ ∨ _) with h' | h'
      · subst h'; exact ⟨by simp, by simp⟩
      · exact ih buffer r h'
    | RESULT => exact ih buffer r (by simpa [mergeSpecAux] using h)
    | TARGET =>
      rcases (by simpa [mergeSpecAux] using h : r = ⟨.TARGET, msg⟩ ∨ _) with h' | h'
      · subst h'; exact ⟨by simp, by simp⟩
      · exact ih buffer r h'

/-- C3 counterexample: on the batch Console "ab" (no newline) followed by
Result "done", the code's merge keeps a Result record (the salvage of
gdb_controller.py lines 178-180 rewrites the last popped record — here the
Result — with the pending fragment text instead of dropping it), so the
claim "every Result record is excluded from the merged output" is false. -/
theorem process_responses_result_survives :
    process_responses [⟨.CONSOLE, "ab"⟩, ⟨.RESULT, "done"⟩] = [⟨.RESULT, "ab"⟩] ∧
    ¬(∀ r ∈ process_responses [⟨.CONSOLE, "ab"⟩, ⟨.RESULT, "done"⟩],
        r.mitype ≠ GdbMIType.RESULT) := by
  constructor
  · decide
  · decide

/-- C3 (amended): for every batch in which no unterminated console run is
left pending at the end of the scan (the fragment cache is empty), the
merged result is exactly the spec-side merge — unterminated Console records
are removed with their text concatenated onto the next newline-terminated
Console record, Log records are trimmed, Result records and
'cmd-param-changed' Notify records are excluded, and surviving records keep
their relative order.  (When fragment text is pending at the end of the
batch, the code instead retains the last removed record with its message
replaced by the stripped pending text; see the counterexample.) -/
theorem process_responses_merges (resps : List GdbResponse)
    (h : (scanEdit "" resps).2 = "") :
    process_responses resps = mergeSpecAux "" resps ∧
    ∀ r ∈ process_responses resps,
      r.mitype ≠ .RESULT ∧ ¬(r.mitype = .NOTIFY ∧ r.message = "cmd-param-changed") := by
  have heq : process_responses resps = mergeSpecAux "" resps := by
    rw [process_responses]
    simp only [h, ne_eq, not_true_eq_false, if_false]
    exact scanEdit_filter_eq_mergeSpec resps ""
  exact ⟨heq, fun r hr => mergeSpecAux_mem resps "" r (heq ▸ hr)⟩

/-- Witness for C3 (amended) at a concrete batch: fragments "ab" then
"cd\n" merge into the single line "abcd", the Result record and the
'cmd-param-changed' Notify record disappear, the Log record is trimmed,
and order is preserved. -/
theorem process_responses_merges_witness :
    (scanEdit "" [⟨.CONSOLE, "ab"⟩, ⟨.CONSOLE, "cd\n"⟩, ⟨.RESULT, "done"⟩,
        ⟨.NOTIFY, "cmd-param-changed"⟩, ⟨.LOG, " hi \n"⟩, ⟨.NOTIFY, "stopped"⟩]).2 = "" ∧
    process_responses [⟨.CONSOLE, "ab"⟩, ⟨.CONSOLE, "cd\n"⟩, ⟨.RESULT, "done"⟩,
        ⟨.NOTIFY, "cmd-param-changed"⟩, ⟨.LOG, " hi \n"⟩, ⟨.NOTIFY, "stopped"⟩] =
      mergeSpecAux "" [⟨.CONSOLE, "ab"⟩, ⟨.CONSOLE, "cd\n"⟩, ⟨.RESULT, "done"⟩,
        ⟨.NOTIFY, "cmd-param-changed"⟩, ⟨.LOG, " hi \n"⟩, ⟨.NOTIFY, "stopped"⟩] ∧
    process_responses [⟨.CONSOLE, "ab"⟩, ⟨.CONSOLE, "cd\n"⟩, ⟨.RESULT, "done"⟩,
        ⟨.NOTIFY, "cmd-param-changed"⟩, ⟨.LOG, " hi \n"⟩, ⟨.NOTIFY, "stopped"⟩] =
      [⟨.CONSOLE, "abcd"⟩, ⟨.LOG, "hi"⟩, ⟨.NOTIFY, "stopped"⟩] :=
  ⟨by decide,
    (process_responses_merges [⟨.CONSOLE, "ab"⟩, ⟨.CONSOLE, "cd\n"⟩, ⟨.RESULT, "done"⟩,
        ⟨.NOTIFY, "cmd-param-changed"⟩, ⟨.LOG, " hi \n"⟩, ⟨.NOTIFY, "stopped"⟩] (by decide)).1,
    by decide⟩

/-- C2: a call entered with state Dead returns None without submitting the
command; a call entered with state Running first applies the state change
revealed by the bounded non-blocking poll (get_gdb_response with a
1-second bound, gdb_controller.py line 126) and, if the state is still not
Stopped after that poll, returns None without submitting; when the poll
does reveal a stop, the command is submitted.  The model is a total
function, so no exception escapes. -/
theorem execute_busy_absent (poll : List GdbResponse) (command : String)
    (write : WriteOutcome) :
    execute .DEAD poll command write = ⟨.DEAD, none, false, false⟩ ∧
    (apply_gdb_state .RUNNING poll ≠ .STOPPED →
      execute .RUNNING poll command write =
        ⟨apply_gdb_state .RUNNING poll, none, false, false⟩) ∧
    (apply_gdb_state .RUNNING poll = .STOPPED →
      (execute .RUNNING poll command write).submitted = true) := by
  refine ⟨by simp [execute], fun h => by simp [execute, h], fun h => ?_⟩
  simp only [execute, h]
  cases write with
  | brokenPipe => simp
  | records rs => by_cases hq : command = "quit" ∨ command = "q" <;> simp [hq]

/-- Witness for C2: with no pending notification the Running session stays
Running and execute returns None unsubmitted; a Dead session returns None
unsubmitted; with a pending stop notification the command is submitted. -/
theorem execute_busy_absent_witness :
    execute .DEAD [] "vmmap" (.records []) = ⟨.DEAD, none, false, false⟩ ∧
    execute .RUNNING [] "vmmap" (.records []) = ⟨.RUNNING, none, false, false⟩ ∧
    (execute .RUNNING [⟨.NOTIFY, "stopped"⟩] "vmmap" (.records [])).submitted = true := by
  refine ⟨(execute_busy_absent [] "vmmap" (.records [])).1, ?_, ?_⟩
  · have h := (execute_busy_absent [] "vmmap" (.records [])).2.1 (by decide)
    rwa [show apply_gdb_state .RUNNING [] = .RUNNING from rfl] at h
  · exact (execute_busy_absent [⟨.NOTIFY, "stopped"⟩] "vmmap" (.records [])).2.2 (by decide)

/-- C4: when writing the command raises BrokenPipeError (gdb has exited),
execute sets the state to Dead and returns the single synthetic Result
record 'GDB exited! run this command again' instead of propagating the
exception — both when entered Stopped and when entered Running with the
poll revealing a stop. -/
theorem execute_broken_pipe (poll : List GdbResponse) (command : String) :
    execute .STOPPED poll command .brokenPipe =
      ⟨.DEAD, some [brokenPipeDiagnostic], true, false⟩ ∧
    (apply_gdb_state .RUNNING poll = .STOPPED →
      execute .RUNNING poll command .brokenPipe =
        ⟨.DEAD, some [brokenPipeDiagnostic], true, false⟩) := by
  exact ⟨by simp [execute], fun h => by simp [execute, h]⟩

/-- Witness for C4 at a concrete call. -/
theorem execute_broken_pipe_witness :
    execute .STOPPED [] "bt" .brokenPipe =
      ⟨.DEAD, some [⟨.RESULT, "GDB exited! run this command again"⟩], true, false⟩ ∧
    execute .RUNNING [⟨.NOTIFY, "stopped"⟩] "bt" .brokenPipe =
      ⟨.DEAD, some [⟨.RESULT, "GDB exited! run this command again"⟩], true, false⟩ :=
  ⟨(execute_broken_pipe [] "bt").1,
    (execute_broken_pipe [⟨.NOTIFY, "stopped"⟩] "bt").2 (by decide)⟩

/-- C7: when the issued command is 'quit' or 'q' and the command is
submitted (session Stopped), execute closes the session after processing
the response: close() is invoked and the final state is Dead, while the
merged response of the quit command is still returned. -/
theorem execute_quit_closes (poll rs : List GdbResponse) (command : String)
    (h : command = "quit" ∨ command = "q") :
    execute .STOPPED poll command (.records rs) =
      ⟨.DEAD, some (process_responses rs), true, true⟩ := by
  simp [execute, h]

/-- Witness for C7: quitting a Stopped session closes it and ends Dead. -/
theorem execute_quit_closes_witness :
    execute .STOPPED [] "quit" (.records [⟨.CONSOLE, "quitting\n"⟩]) =
      ⟨.DEAD, some [⟨.CONSOLE, "quitting"⟩], true, true⟩ :=
  (execute_quit_closes [] [⟨.CONSOLE, "quitting\n"⟩] "quit" (Or.inl rfl)).trans (by decide)

/-- C5: evaluation of close() at the failing input.  A freshly constructed
controller (start() never called) is in state Dead, yet close() raises
AttributeError, because `__init__` (gdb_controller.py lines 61-72) never
assigns `self._started` and close() reads it first (line 264).  This
contradicts the claim (and spec section 4.4) that close() is safe to call
in every session state, including when the session was never started. -/
theorem close_unstarted_raises :
    initCtrl.state = .DEAD ∧ close initCtrl = .error .attributeError :=
  ⟨rfl, rfl⟩

set_option maxRecDepth 8192 in
/-- C8: may_start_gdb never hands a Dead controller to a public operation
(every controller it returns is in a non-Dead state); start() is a no-op
when the state is not Dead; and after a debugger crash (state Dead with the
session previously started), the next call closes the dead session and
returns a freshly constructed and started controller in state Stopped,
with no explicit restart by the caller. -/
theorem may_start_gdb_ensures_started :
    (∀ (g : Option AsyncGdbCtrl) (c : AsyncGdbCtrl),
      may_start_gdb g = .ok c → c.state ≠ .DEAD) ∧
    (∀ c : AsyncGdbCtrl, c.state ≠ .DEAD → start c = c) ∧
    (∀ c : AsyncGdbCtrl, c.state = .DEAD → c.started = some true →
      may_start_gdb (some c) = .ok (start initCtrl) ∧ (start initCtrl).state = .STOPPED) := by
  decide

/-- Witness for C8: the controller returned for a fresh global is not Dead;
start() on a Running controller changes nothing; a crashed (Dead but
previously started) controller is replaced by a fresh Stopped one. -/
theorem may_start_gdb_ensures_started_witness :
    AsyncGdbCtrl.state ⟨.STOPPED, some true, true, true, true⟩ ≠ .DEAD ∧
    start ⟨.RUNNING, some true, true, true, true⟩ = ⟨.RUNNING, some true, true, true, true⟩ ∧
    may_start_gdb (some ⟨.DEAD, some true, true, true, true⟩) = .ok (start initCtrl) ∧
    (start initCtrl).state = .STOPPED :=
  ⟨may_start_gdb_ensures_started.1 none ⟨.STOPPED, some true, true, true, true⟩ (by decide),
    may_start_gdb_ensures_started.2.1 ⟨.RUNNING, some true, true, true, true⟩ (by decide),
    (may_start_gdb_ensures_started.2.2 ⟨.DEAD, some true, true, true, true⟩ rfl rfl).1,
    (may_start_gdb_ensures_started.2.2 ⟨.DEAD, some true, true, true, true⟩ rfl rfl).2⟩

/-- C6: read_from_process returns None (absent) when the chunk is empty —
poll timeout or no data — which is distinct from any text result; a chunk
containing even one byte failing the printable-or-CR/LF test (the source's
test is byte value at least 32, or 0x0d, or 0x0a) is rendered as a
hexdump, never as text; a chunk all of whose bytes pass the test is
decoded as UTF-8 text, falling back to the hexdump rendering exactly when
decoding fails. -/
theorem read_from_process_rendering :
    read_from_process [] = .absent ∧
    (∀ d : List Nat, d ≠ [] → (∃ b ∈ d, printableOrCrLf b = false) →
      read_from_process d = .dump d) ∧
    (∀ d : List Nat, d ≠ [] → (∀ b ∈ d, printableOrCrLf b = true) →
      read_from_process d = if utf8Valid d then .text d else .dump d) := by
  refine ⟨rfl, ?_, ?_⟩
  · rintro d hne ⟨b, hb, hbf⟩
    have hall : ¬(d.all printableOrCrLf = true) := by
      simp only [List.all_eq_true]
      intro h
      have hbt := h b hb
      rw [hbf] at hbt
      cases hbt
    simp [read_from_process, hne, hall]
  · intro d hne hall
    have h : d.all printableOrCrLf = true := List.all_eq_true.mpr hall
    simp [read_from_process, hne, h]

/-- Witness for C6: the empty chunk is absent; "H" followed by the bell
byte 7 forces a hexdump; "Hi" (72, 105) decodes as text; the lone byte 255
passes the printable test but is invalid UTF-8, so it falls back to a
hexdump. -/
theorem read_from_process_rendering_witness :
    read_from_process [] = .absent ∧
    read_from_process [72, 7] = .dump [72, 7] ∧
    read_from_process [72, 105] = .text [72, 105] ∧
    read_from_process [255] = .dump [255] :=
  ⟨read_from_process_rendering.1,
    read_from_process_rendering.2.1 [72, 7] (by decide) ⟨7, by decide, by decide⟩,
    (read_from_process_rendering.2.2 [72, 105] (by decide) (by decide)).trans (by decide),
    (read_from_process_rendering.2.2 [255] (by decide) (by decide)).trans (by decide)⟩

/-- C10: the action whitelist has exactly 21 entries; every whitelisted
action is forwarded verbatim to execute_command; every other action string
yields the structured error payload and issues no command. -/
theorem debug_control_whitelist :
    AVAILABLE_ACTIONS.length = 21 ∧
    (∀ a : String, a ∈ AVAILABLE_ACTIONS → debug_control a = .executed a) ∧
    (∀ a : String, a ∉ AVAILABLE_ACTIONS →
      debug_control a = .errorPayload "Unknown state action. Take a look at documentation") :=
  ⟨rfl, fun a h => by simp [debug_control, h], fun a h => by simp [debug_control, h]⟩

/-- Witness for C10: "c" is whitelisted and forwarded; "continue" is not in
the whitelist and yields the error payload. -/
theorem debug_control_whitelist_witness :
    debug_control "c" = .executed "c" ∧
    debug_control "continue" =
      .errorPayload "Unknown state action. Take a look at documentation" :=
  ⟨debug_control_whitelist.2.1 "c" (by decide),
    debug_control_whitelist.2.2 "continue" (by decide)⟩
